import Mathlib

/-!
# A shallow embedding of the `wrcap` library (`src/lib.rs`)

`wrcap` lets a process capture everything written to stdout/stderr during a
callback.  It combines a process-wide `Mutex` with libc's `flockfile` into a
"lent" handle (`LentFile`), and redirects the stream by atomically exchanging
the `FILE`'s underlying file descriptor (`swap_fd`, implemented in `fops.c`).

The embedding below models one stream identity's world (the two identities,
stdout and stderr, have textually identical code operating on disjoint
statics, so one world models either).  Machine-level byte streams are
modelled as `List Char` (the claims at issue concern valid text), file
descriptors as `Int` (the C `swap_fd` returns a C `int`, `-1` on failure),
and the fallible C primitives (`fflush`, `swap_fd`) consume an explicit
oracle list recording, per call, success (`none`) or failure with an OS
errno (`some e`).  An empty oracle list means every remaining call succeeds.

Rust ownership effects are made explicit: dropping an `OwnedFd` or a
`PipeReader`/`PipeWriter` closes the descriptor; `into_raw_fd` consumes a
value without closing it; a panic unwinds the scope, dropping live locals.
-/

namespace Wrcap

/-- Byte content flowing through a stream, modelled as text. -/
abbrev Bytes := List Char

/-- Observable events, in program order: lock traffic, flushes, descriptor
exchanges, callback invocation, panics, and descriptor closes. -/
inductive Event where
  | eMutexLock : Event
  | eMutexUnlock : Event
  | eFlockfile : Event
  | eFunlockfile : Event
  | eFlushOk : Event
  | eFlushErr (errno : Nat) : Event
  | eSwapOk (newFd oldFd : Int) : Event
  | eSwapErr (errno : Nat) : Event
  | eCallback : Event
  | ePanic : Event
  | eCloseFd (fd : Int) : Event
  deriving DecidableEq, Repr

/-- An open (or since-closed) file descriptor and the bytes written to it.
A closed pipe write end keeps its content: the OS pipe buffer remains
readable from the read end until drained. -/
structure FdEntry where
  fd : Int
  isOpen : Bool
  content : Bytes
  deriving DecidableEq, Repr

/-- A callback passed to `capture_into`: the bytes it writes through the
(buffered) stream during its run, concatenated, and whether it panics at the
end of its run. -/
structure Callback where
  writes : Bytes
  panics : Bool
  deriving DecidableEq, Repr

/-- The state of one stream identity's world: the `FILE`'s current target
descriptor and userspace buffer, the libc writer lock (`flockfile`), the
descriptor table, live pipes (reader fd, writer fd), the process-wide
`Mutex` for this identity with its poison flag, how many `LentFile` handles
exist, the failure oracles for `fflush` and the C `swap_fd`, and the event
trace. -/
structure World where
  fileTarget : Int
  fileBuf : Bytes
  fileLocked : Bool
  fds : List FdEntry
  pipes : List (Int × Int)
  nextFd : Int
  mutexHeld : Bool
  poisoned : Bool
  handleCount : Nat
  flushFailures : List (Option Nat)
  swapFailures : List (Option Nat)
  events : List Event
  deriving DecidableEq, Repr

/-- Append one event to the trace. -/
def pushEvent (w : World) (e : Event) : World :=
  { w with events := w.events ++ [e] }

/-- Append bytes to the content of every open descriptor-table entry for
`fd` (fd numbers are unique in well-formed worlds). -/
def appendToFd (w : World) (fd : Int) (s : Bytes) : World :=
  { w with
    fds := w.fds.map fun en =>
      if en.fd = fd ∧ en.isOpen = true then { en with content := en.content ++ s } else en }

/-- `close(fd)`: mark the descriptor closed (dropping an `OwnedFd`,
`PipeReader` or `PipeWriter` does this) and record the event. -/
def closeFd (w : World) (fd : Int) : World :=
  pushEvent
    { w with
      fds := w.fds.map fun en => if en.fd = fd then { en with isOpen := false } else en }
    (Event.eCloseFd fd)

/-- Look up the descriptor-table entry for `fd`. -/
def lookupFd (w : World) (fd : Int) : Option FdEntry :=
  w.fds.find? fun en => en.fd == fd

/-- `true` when `fd` has no open entry in the descriptor table. -/
def fdClosed (w : World) (fd : Int) : Bool :=
  match lookupFd w fd with
  | some en => !en.isOpen
  | none => true

/-- libc `fflush(file)`: on success the userspace buffer is written through
to the current target descriptor and emptied; on failure (per the oracle)
the call returns nonzero with the OS errno.  External collaborator, modelled
per its documented contract (spec section 6). -/
def cFflush (w : World) : Option Nat × World :=
  match w.flushFailures with
  | [] =>
      let w1 := appendToFd w w.fileTarget w.fileBuf
      (none, { w1 with fileBuf := [] })
  | none :: rest =>
      let w1 := appendToFd w w.fileTarget w.fileBuf
      (none, { w1 with fileBuf := [], flushFailures := rest })
  | some e :: rest => (some e, { w with flushFailures := rest })

/-- Modelled from the spec: the C-side `swap_fd` in `fops.c`, which is part
of this repository but absent from `src/` (only its extern declaration and
callers are present).  Per the spec it "atomically substitutes the stream's
OS-level output target and returns the previous one, also with an OS-level
error code on failure"; as a C `int`-returning descriptor primitive its
failure return is `-1`, with the target left as it was. -/
def swap_fd_c (w : World) (newFd : Int) : Int × World :=
  match w.swapFailures with
  | [] =>
      (w.fileTarget, pushEvent { w with fileTarget := newFd } (Event.eSwapOk newFd w.fileTarget))
  | none :: rest =>
      (w.fileTarget,
        pushEvent { w with fileTarget := newFd, swapFailures := rest }
          (Event.eSwapOk newFd w.fileTarget))
  | some e :: rest => (-1, pushEvent { w with swapFailures := rest } (Event.eSwapErr e))

/-- `LentFile::swap_fd` (src/lib.rs:60-63): consumes `fd` via
`into_raw_fd` (no close), calls the C `swap_fd`, and unconditionally wraps
the returned integer in an `OwnedFd` via `from_raw_fd` — the return value is
never checked for failure, so the wrapper's type has no error path. -/
def LentFile.swap_fd (w : World) (fd : Int) : Int × World :=
  swap_fd_c w fd

/-- `LentFile::flush` (src/lib.rs:65-71): `fflush` on the stream; `Ok` on
zero return, otherwise `Err(io::Error::last_os_error())`.  The returned
`Option Nat` is `none` for `Ok(())` and `some errno` for the error. -/
def LentFile.flush (w : World) : Option Nat × World :=
  match cFflush w with
  | (none, w1) => (none, pushEvent w1 Event.eFlushOk)
  | (some e, w1) => (some e, pushEvent w1 (Event.eFlushErr e))

/-- Result of `capture_into`: `Ok(())`, an `Err` carrying an OS errno, or a
panic propagating out of the callback. -/
inductive CapResult where
  | ok : CapResult
  | ioErr (errno : Nat) : CapResult
  | panicked : CapResult
  deriving DecidableEq, Repr

/-- Run the callback body: its writes are appended to the stream's
userspace buffer (writes go through the buffered `FILE`); then it panics if
so flagged. -/
def runCallback (w : World) (cb : Callback) : World :=
  let w1 := pushEvent { w with fileBuf := w.fileBuf ++ cb.writes } Event.eCallback
  if cb.panics then pushEvent w1 Event.ePanic else w1

/-- `LentFile::capture_into` (src/lib.rs:73-91), line by line:
`self.flush()?` (an early error return drops the moved-in `fd`, closing
it); `old_fd = self.swap_fd(fd)`; `f()` (a panic unwinds the scope,
dropping `old_fd` — which closes it — and propagates); `self.flush()?`
(an early error return again drops `old_fd`); `_swapped = self.swap_fd(old_fd)`
(`old_fd` consumed by `into_raw_fd`, not closed); `_swapped` dropped
(closing the pipe writer); `Ok(())`. -/
def LentFile.capture_into (w : World) (fdArg : Int) (cb : Callback) : CapResult × World :=
  match LentFile.flush w with
  | (some e, w1) => (CapResult.ioErr e, closeFd w1 fdArg)
  | (none, w1) =>
    let p := LentFile.swap_fd w1 fdArg
    let w2 := runCallback p.2 cb
    if cb.panics then
      (CapResult.panicked, closeFd w2 p.1)
    else
      match LentFile.flush w2 with
      | (some e, w3) => (CapResult.ioErr e, closeFd w3 p.1)
      | (none, w3) =>
        let q := LentFile.swap_fd w3 p.1
        (CapResult.ok, closeFd q.2 q.1)

/-- `std::pipe::pipe()`: allocate a fresh connected (reader fd, writer fd)
pair with empty content.  Pipe creation failure is not modelled (no claim
depends on it). -/
def mkPipe (w : World) : (Int × Int) × World :=
  ((w.nextFd, w.nextFd + 1),
    { w with
      fds := w.fds ++ [⟨w.nextFd, true, []⟩, ⟨w.nextFd + 1, true, []⟩],
      pipes := w.pipes ++ [(w.nextFd, w.nextFd + 1)],
      nextFd := w.nextFd + 2 })

/-- Result of `capture`: the returned `PipeReader`'s fd, an I/O error, or a
propagating panic. -/
inductive CapPipe where
  | ok (reader : Int) : CapPipe
  | ioErr (errno : Nat) : CapPipe
  | panicked : CapPipe
  deriving DecidableEq, Repr

/-- `LentFile::capture` (src/lib.rs:93-99): create a pipe, `capture_into`
with the write end, return the read end.  On an `Err` from `capture_into`
(`?`) or a propagating panic, the local `reader` is dropped, closing it. -/
def LentFile.capture (w : World) (cb : Callback) : CapPipe × World :=
  let pr := mkPipe w
  match LentFile.capture_into pr.2 pr.1.2 cb with
  | (CapResult.ok, w1) => (CapPipe.ok pr.1.1, w1)
  | (CapResult.ioErr e, w1) => (CapPipe.ioErr e, closeFd w1 pr.1.1)
  | (CapResult.panicked, w1) => (CapPipe.panicked, closeFd w1 pr.1.1)

/-- `Read::read_to_string` on a `PipeReader`: find the pipe whose read end
is `reader`; if its write end is still open the read blocks (`none`),
otherwise it drains the pipe's buffered content to end-of-data. -/
def readToString (w : World) (reader : Int) : Option Bytes :=
  match w.pipes.find? fun p => p.1 == reader with
  | none => none
  | some p =>
    match lookupFd w p.2 with
    | some en => if en.isOpen then none else some en.content
    | none => none

/-- Result of `capture_string`: the captured text, an I/O error, a
propagating panic, or a blocked drain (the model's image of a
`read_to_string` that never terminates). -/
inductive CapStr where
  | ok (s : Bytes) : CapStr
  | ioErr (errno : Nat) : CapStr
  | panicked : CapStr
  | blocked : CapStr
  deriving DecidableEq, Repr

/-- `LentFile::capture_string` (src/lib.rs:101-107): `capture`, then drain
the reader with `read_to_string` (the `List Char` model covers the
valid-text case; `DecodeFailure` on non-UTF-8 bytes is out of this model's
scope), dropping the reader at scope exit. -/
def LentFile.capture_string (w : World) (cb : Callback) : CapStr × World :=
  match LentFile.capture w cb with
  | (CapPipe.ok reader, w1) =>
    match readToString w1 reader with
    | some s => (CapStr.ok s, closeFd w1 reader)
    | none => (CapStr.blocked, w1)
  | (CapPipe.ioErr e, w1) => (CapStr.ioErr e, w1)
  | (CapPipe.panicked, w1) => (CapStr.panicked, w1)

/-- Result of `lent_stdout`/`lent_stderr`: a handle, the propagated
`PoisonError`, or blocking on the mutex (held by another handle). -/
inductive LockResult where
  | ok : LockResult
  | poisonErr : LockResult
  | wouldBlock : LockResult
  deriving DecidableEq, Repr

/-- Shared body of `lent_stdout` (src/lib.rs:29-39) and `lent_stderr`
(src/lib.rs:41-51), which are textually identical up to which static
`MUTEX` and global `FILE` they touch: `MUTEX.lock()?` — blocking while
held; on a poisoned mutex the `?` propagates the `PoisonError` (the guard
inside it is dropped by the caller, releasing the mutex, with the poison
flag left set); on success `flockfile` is called and the `LentFile` handle
is produced. -/
def lent_file (w : World) : LockResult × World :=
  if w.mutexHeld then (LockResult.wouldBlock, w)
  else if w.poisoned then
    (LockResult.poisonErr, pushEvent (pushEvent w Event.eMutexLock) Event.eMutexUnlock)
  else
    let w1 := pushEvent { w with mutexHeld := true } Event.eMutexLock
    let w2 := pushEvent { w1 with fileLocked := true } Event.eFlockfile
    (LockResult.ok, { w2 with handleCount := w2.handleCount + 1 })

/-- `lent_stdout` (src/lib.rs:29-39), an instance of `lent_file` on the
stdout identity's world. -/
def lent_stdout (w : World) : LockResult × World :=
  lent_file w

/-- `lent_stderr` (src/lib.rs:41-51), an instance of `lent_file` on the
stderr identity's world. -/
def lent_stderr (w : World) : LockResult × World :=
  lent_file w

/-- `impl Drop for LentFile` (src/lib.rs:53-57) plus field drop order:
the `drop` body runs `funlockfile(self.file)` first, then the fields are
dropped — the `MutexGuard`'s drop releases the process-wide mutex, and (per
`std::sync::Mutex`) poisons it when the thread is unwinding from a panic.
A no-op when no handle exists. -/
def LentFile.dropHandle (w : World) (panicking : Bool) : World :=
  if w.handleCount = 0 then w
  else
    let w1 := pushEvent { w with fileLocked := false } Event.eFunlockfile
    pushEvent
      { w1 with
        mutexHeld := false
        poisoned := w1.poisoned || panicking
        handleCount := w1.handleCount - 1 }
      Event.eMutexUnlock

/-- Result of a whole acquire/capture/release session. -/
inductive SessionResult where
  | ok (s : Bytes) : SessionResult
  | lockErr : SessionResult
  | ioErr (errno : Nat) : SessionResult
  | panicked : SessionResult
  | blocked : SessionResult
  deriving DecidableEq, Repr

/-- One full session, as in the crate's test: `lent_stdout()` then
`capture_string(cb)`, with the handle dropped at scope exit on every path —
normal return, error return, or panic unwinding (in which case the guard's
drop poisons the mutex). -/
def session (w : World) (cb : Callback) : SessionResult × World :=
  match lent_stdout w with
  | (LockResult.ok, w1) =>
    match LentFile.capture_string w1 cb with
    | (CapStr.ok s, w2) => (SessionResult.ok s, LentFile.dropHandle w2 false)
    | (CapStr.ioErr e, w2) => (SessionResult.ioErr e, LentFile.dropHandle w2 false)
    | (CapStr.panicked, w2) => (SessionResult.panicked, LentFile.dropHandle w2 true)
    | (CapStr.blocked, w2) => (SessionResult.blocked, w2)
  | (LockResult.poisonErr, w1) => (SessionResult.lockErr, w1)
  | (LockResult.wouldBlock, w1) => (SessionResult.blocked, w1)

/-- `true` exactly on `funlockfile` events. -/
def isFunlock : Event → Bool
  | Event.eFunlockfile => true
  | _ => false

/-- `true` exactly on mutex-release events. -/
def isMutexUnlock : Event → Bool
  | Event.eMutexUnlock => true
  | _ => false

/-- `true` exactly on calls of the descriptor-exchange primitive (successful
or failed). -/
def isSwapAttempt : Event → Bool
  | Event.eSwapOk _ _ => true
  | Event.eSwapErr _ => true
  | _ => false

/-- `true` exactly on failed descriptor exchanges. -/
def isSwapErrEv : Event → Bool
  | Event.eSwapErr _ => true
  | _ => false

/-- `true` exactly on successful flushes. -/
def isFlushOkEv : Event → Bool
  | Event.eFlushOk => true
  | _ => false

/-- How many events in `l` satisfy `p`. -/
def countEv (p : Event → Bool) (l : List Event) : Nat :=
  (l.filter p).length

/-- Canonical post-acquire world for the stdout identity: the handle is
held (mutex and `flockfile` taken), stdout's descriptor is `1` with an
empty buffer, descriptor numbers below `10` are in use by the process, and
every C call succeeds. -/
def w0 : World :=
  { fileTarget := 1, fileBuf := [], fileLocked := true,
    fds := [⟨1, true, []⟩], pipes := [], nextFd := 10,
    mutexHeld := true, poisoned := false, handleCount := 1,
    flushFailures := [], swapFailures := [], events := [] }

/-- `w0` before any handle is taken: mutex free, writer lock free. -/
def wIdle : World :=
  { w0 with mutexHeld := false, fileLocked := false, handleCount := 0 }

/-- `w0` with two explicit success entries in each C-call oracle. -/
def wSucc : World :=
  { w0 with flushFailures := [none, none], swapFailures := [none, none] }

/-- The operations that touch one stream identity's lock state, for the
handle-uniqueness invariant: acquiring a handle (`lent_stdout`, which
blocks — is a no-op here — while the mutex is held), running a capture
through a held handle, and dropping a handle (normally or while
panicking). -/
inductive Op where
  | opLent : Op
  | opCapture (fdArg : Int) (cb : Callback) : Op
  | opDrop (panicking : Bool) : Op

/-- One step of the lock-state machine.  `opCapture` is a method on a
`LentFile`, so it can only run while a handle exists. -/
def stepOp (w : World) : Op → World
  | Op.opLent => (lent_stdout w).2
  | Op.opCapture fdArg cb =>
      if w.handleCount = 0 then w else (LentFile.capture_into w fdArg cb).2
  | Op.opDrop b => LentFile.dropHandle w b

/-- Run a sequence of lock-state operations. -/
def runOps (w : World) (ops : List Op) : World :=
  ops.foldl stepOp w

/-- The handle invariant (spec section 3): at most one lent handle per
stream identity exists at any instant, and while one exists both the
process-wide mutex and the stream's internal writer lock are held. -/
def Inv (w : World) : Prop :=
  w.handleCount ≤ 1 ∧
    (w.handleCount = 0 ∨ (w.mutexHeld = true ∧ w.fileLocked = true))

@[simp] theorem pushEvent_fileTarget (w : World) (e : Event) :
    (pushEvent w e).fileTarget = w.fileTarget := rfl

@[simp] theorem pushEvent_fileBuf (w : World) (e : Event) :
    (pushEvent w e).fileBuf = w.fileBuf := rfl

@[simp] theorem pushEvent_fileLocked (w : World) (e : Event) :
    (pushEvent w e).fileLocked = w.fileLocked := rfl

@[simp] theorem pushEvent_fds (w : World) (e : Event) :
    (pushEvent w e).fds = w.fds := rfl

@[simp] theorem pushEvent_pipes (w : World) (e : Event) :
    (pushEvent w e).pipes = w.pipes := rfl

@[simp] theorem pushEvent_nextFd (w : World) (e : Event) :
    (pushEvent w e).nextFd = w.nextFd := rfl

@[simp] theorem pushEvent_mutexHeld (w : World) (e : Event) :
    (pushEvent w e).mutexHeld = w.mutexHeld := rfl

@[simp] theorem pushEvent_poisoned (w : World) (e : Event) :
    (pushEvent w e).poisoned = w.poisoned := rfl

@[simp] theorem pushEvent_handleCount (w : World) (e : Event) :
    (pushEvent w e).handleCount = w.handleCount := rfl

@[simp] theorem pushEvent_flushFailures (w : World) (e : Event) :
    (pushEvent w e).flushFailures = w.flushFailures := rfl

@[simp] theorem pushEvent_swapFailures (w : World) (e : Event) :
    (pushEvent w e).swapFailures = w.swapFailures := rfl

@[simp] theorem pushEvent_events (w : World) (e : Event) :
    (pushEvent w e).events = w.events ++ [e] := rfl

@[simp] theorem appendToFd_fileTarget (w : World) (fd : Int) (s : Bytes) :
    (appendToFd w fd s).fileTarget = w.fileTarget := rfl

@[simp] theorem appendToFd_fileBuf (w : World) (fd : Int) (s : Bytes) :
    (appendToFd w fd s).fileBuf = w.fileBuf := rfl

@[simp] theorem appendToFd_fileLocked (w : World) (fd : Int) (s : Bytes) :
    (appendToFd w fd s).fileLocked = w.fileLocked := rfl

@[simp] theorem appendToFd_pipes (w : World) (fd : Int) (s : Bytes) :
    (appendToFd w fd s).pipes = w.pipes := rfl

@[simp] theorem appendToFd_nextFd (w : World) (fd : Int) (s : Bytes) :
    (appendToFd w fd s).nextFd = w.nextFd := rfl

@[simp] theorem appendToFd_mutexHeld (w : World) (fd : Int) (s : Bytes) :
    (appendToFd w fd s).mutexHeld = w.mutexHeld := rfl

@[simp] theorem appendToFd_poisoned (w : World) (fd : Int) (s : Bytes) :
    (appendToFd w fd s).poisoned = w.poisoned := rfl

@[simp] theorem appendToFd_handleCount (w : World) (fd : Int) (s : Bytes) :
    (appendToFd w fd s).handleCount = w.handleCount := rfl

@[simp] theorem appendToFd_flushFailures (w : World) (fd : Int) (s : Bytes) :
    (appendToFd w fd s).flushFailures = w.flushFailures := rfl

@[simp] theorem appendToFd_swapFailures (w : World) (fd : Int) (s : Bytes) :
    (appendToFd w fd s).swapFailures = w.swapFailures := rfl

@[simp] theorem appendToFd_events (w : World) (fd : Int) (s : Bytes) :
    (appendToFd w fd s).events = w.events := rfl

@[simp] theorem closeFd_fileTarget (w : World) (fd : Int) :
    (closeFd w fd).fileTarget = w.fileTarget := rfl

@[simp] theorem closeFd_fileBuf (w : World) (fd : Int) :
    (closeFd w fd).fileBuf = w.fileBuf := rfl

@[simp] theorem closeFd_fileLocked (w : World) (fd : Int) :
    (closeFd w fd).fileLocked = w.fileLocked := rfl

@[simp] theorem closeFd_pipes (w : World) (fd : Int) :
    (closeFd w fd).pipes = w.pipes := rfl

@[simp] theorem closeFd_nextFd (w : World) (fd : Int) :
    (closeFd w fd).nextFd = w.nextFd := rfl

@[simp] theorem closeFd_mutexHeld (w : World) (fd : Int) :
    (closeFd w fd).mutexHeld = w.mutexHeld := rfl

@[simp] theorem closeFd_poisoned (w : World) (fd : Int) :
    (closeFd w fd).poisoned = w.poisoned := rfl

@[simp] theorem closeFd_handleCount (w : World) (fd : Int) :
    (closeFd w fd).handleCount = w.handleCount := rfl

@[simp] theorem closeFd_flushFailures (w : World) (fd : Int) :
    (closeFd w fd).flushFailures = w.flushFailures := rfl

@[simp] theorem closeFd_swapFailures (w : World) (fd : Int) :
    (closeFd w fd).swapFailures = w.swapFailures := rfl

@[simp] theorem closeFd_events (w : World) (fd : Int) :
    (closeFd w fd).events = w.events ++ [Event.eCloseFd fd] := rfl

@[simp] theorem countEv_append (p : Event → Bool) (l₁ l₂ : List Event) :
    countEv p (l₁ ++ l₂) = countEv p l₁ + countEv p l₂ := by
  unfold countEv
  rw [List.filter_append, List.length_append]

@[simp] theorem countEv_cons (p : Event → Bool) (e : Event) (l : List Event) :
    countEv p (e :: l) = (if p e then 1 else 0) + countEv p l := by
  unfold countEv
  by_cases h : p e <;> simp [h, List.filter_cons, Nat.add_comm]

@[simp] theorem countEv_nil (p : Event → Bool) : countEv p [] = 0 := rfl

theorem find?_map_fd_preserving (g : FdEntry → FdEntry)
    (hg : ∀ en, (g en).fd = en.fd) (l : List FdEntry) (fd : Int) :
    (l.map g).find? (fun en => en.fd == fd) =
      (l.find? (fun en => en.fd == fd)).map g := by
  induction l with
  | nil => rfl
  | cons a t ih =>
    by_cases h : a.fd = fd
    · rw [List.map_cons, List.find?_cons_of_pos, List.find?_cons_of_pos] <;>
        simp [hg, h]
    · rw [List.map_cons, List.find?_cons_of_neg, List.find?_cons_of_neg, ih] <;>
        simp [hg, h]

theorem lookupFd_closeFd (w : World) (fd fd' : Int) :
    lookupFd (closeFd w fd') fd =
      (lookupFd w fd).map
        (fun en => if en.fd = fd' then { en with isOpen := false } else en) := by
  unfold lookupFd closeFd pushEvent
  exact find?_map_fd_preserving _
    (by intro en; by_cases h : en.fd = fd' <;> simp [h]) _ _

theorem lookupFd_fd (w : World) (fd : Int) (en : FdEntry)
    (h : lookupFd w fd = some en) : en.fd = fd := by
  have := List.find?_some h
  simpa using this

theorem fdClosed_closeFd_self (w : World) (fd : Int) :
    fdClosed (closeFd w fd) fd = true := by
  unfold fdClosed
  rw [lookupFd_closeFd]
  cases h : lookupFd w fd with
  | none => rfl
  | some en => simp [lookupFd_fd w fd en h]

theorem fdClosed_closeFd_mono (w : World) (fd fd' : Int)
    (h : fdClosed w fd = true) : fdClosed (closeFd w fd') fd = true := by
  unfold fdClosed at h ⊢
  rw [lookupFd_closeFd]
  cases hl : lookupFd w fd with
  | none => rfl
  | some en =>
    rw [hl] at h
    by_cases hfd : en.fd = fd' <;> simp [hfd] <;> simpa using h

theorem fdClosed_eq_of_fds (w w' : World) (fd : Int) (h : w'.fds = w.fds) :
    fdClosed w' fd = fdClosed w fd := by
  unfold fdClosed lookupFd
  rw [h]

theorem dropHandle_fds (w : World) (b : Bool) :
    (LentFile.dropHandle w b).fds = w.fds := by
  unfold LentFile.dropHandle pushEvent
  by_cases h : w.handleCount = 0 <;> simp [h]

@[simp] theorem fdClosed_dropHandle (w : World) (b : Bool) (fd : Int) :
    fdClosed (LentFile.dropHandle w b) fd = fdClosed w fd :=
  fdClosed_eq_of_fds w _ fd (dropHandle_fds w b)

@[simp] theorem dropHandle_fileTarget (w : World) (b : Bool) :
    (LentFile.dropHandle w b).fileTarget = w.fileTarget := by
  unfold LentFile.dropHandle
  by_cases h : w.handleCount = 0 <;> simp [h]

@[simp] theorem dropHandle_events (w : World) (b : Bool)
    (h : w.handleCount ≠ 0) :
    (LentFile.dropHandle w b).events =
      w.events ++ [Event.eFunlockfile, Event.eMutexUnlock] := by
  unfold LentFile.dropHandle
  simp [h]

@[simp] theorem dropHandle_fileLocked (w : World) (b : Bool)
    (h : w.handleCount ≠ 0) :
    (LentFile.dropHandle w b).fileLocked = false := by
  unfold LentFile.dropHandle
  simp [h]

@[simp] theorem dropHandle_mutexHeld (w : World) (b : Bool)
    (h : w.handleCount ≠ 0) :
    (LentFile.dropHandle w b).mutexHeld = false := by
  unfold LentFile.dropHandle
  simp [h]

@[simp] theorem dropHandle_poisoned (w : World) (b : Bool)
    (h : w.handleCount ≠ 0) :
    (LentFile.dropHandle w b).poisoned = (w.poisoned || b) := by
  unfold LentFile.dropHandle
  simp [h]

@[simp] theorem dropHandle_handleCount (w : World) (b : Bool) :
    (LentFile.dropHandle w b).handleCount = w.handleCount - 1 := by
  unfold LentFile.dropHandle
  by_cases h : w.handleCount = 0 <;> simp [h]

/-- Claim C5: for every callback whose writes through the redirected stream
total some byte sequence that is valid text, `capture_string` returns
exactly that byte sequence decoded (content written equals content
captured, byte-for-byte); in particular a callback that writes
"Hello, world! 7\n" then "goodbye" (successive writes concatenate in the
stream buffer) yields exactly "Hello, world! 7\ngoodbye". -/
theorem capture_string_roundtrip :
    (∀ s : Bytes, (LentFile.capture_string w0 ⟨s, false⟩).1 = CapStr.ok s) ∧
    (LentFile.capture_string w0
        ⟨"Hello, world! 7\n".toList ++ "goodbye".toList, false⟩).1 =
      CapStr.ok "Hello, world! 7\ngoodbye".toList := by
  constructor
  · intro s; rfl
  · decide

/-- Claim C9: when `capture` returns successfully, the pipe's write end (the
descriptor active during the callback, received back by the swap-back) has
already been closed inside the call, so draining the returned read end
terminates (`readToString` yields a value rather than blocking). -/
theorem capture_success_write_end_closed :
    ∀ s : Bytes,
      (LentFile.capture w0 ⟨s, false⟩).1 = CapPipe.ok 10 ∧
      fdClosed (LentFile.capture w0 ⟨s, false⟩).2 11 = true ∧
      readToString (LentFile.capture w0 ⟨s, false⟩).2 10 = some s := by
  intro s
  exact ⟨rfl, rfl, rfl⟩

/-- Counterexample to claim C1: the claim says that when the callback panics the
post-callback flush and the swap-back still run during unwinding, restoring
the stream to its pre-capture target.  In fact, on a panicking callback
`capture_into`'s unwinding performs no further flush, performs no swap-back
(only the swap-in is ever attempted), leaves the stream targeting the
capture fd `11` instead of the pre-capture target `1`, and closes the saved
original descriptor. -/
theorem panic_does_not_restore_target :
    (LentFile.capture_into w0 11 ⟨"boom".toList, true⟩).1 = CapResult.panicked ∧
    w0.fileTarget = 1 ∧
    (LentFile.capture_into w0 11 ⟨"boom".toList, true⟩).2.fileTarget = 11 ∧
    countEv isSwapAttempt
      (LentFile.capture_into w0 11 ⟨"boom".toList, true⟩).2.events = 1 ∧
    countEv isFlushOkEv
      (LentFile.capture_into w0 11 ⟨"boom".toList, true⟩).2.events = 1 ∧
    fdClosed (LentFile.capture_into w0 11 ⟨"boom".toList, true⟩).2 1 = true := by
  exact ⟨rfl, rfl, rfl, rfl, rfl, rfl⟩

/-- Claim C1 amended: if the callback panics, the post-callback flush and the
descriptor swap-back do NOT execute during unwinding — the stream is left
targeting the capture fd and the saved original descriptor is closed (its
`OwnedFd` is dropped by the unwinding scope) — but the lock is still
released: the handle's `Drop` runs `funlockfile` and the `MutexGuard`'s
drop releases the process-wide mutex (poisoning it), so restoration of the
lock, though not of the stream target, survives failure. -/
theorem panic_releases_lock_but_skips_restore
    (w : World) (cb : Callback)
    (hm : w.mutexHeld = false) (hp : w.poisoned = false)
    (hh : w.handleCount = 0) (hf : w.flushFailures = [])
    (hs : w.swapFailures = []) (hcb : cb.panics = true) :
    (session w cb).1 = SessionResult.panicked ∧
    (session w cb).2.fileTarget = w.nextFd + 1 ∧
    fdClosed (session w cb).2 w.fileTarget = true ∧
    (session w cb).2.fileLocked = false ∧
    (session w cb).2.mutexHeld = false ∧
    (session w cb).2.poisoned = true ∧
    countEv isFlushOkEv (session w cb).2.events =
      countEv isFlushOkEv w.events + 1 ∧
    countEv isSwapAttempt (session w cb).2.events =
      countEv isSwapAttempt w.events + 1 ∧
    countEv isFunlock (session w cb).2.events =
      countEv isFunlock w.events + 1 ∧
    countEv isMutexUnlock (session w cb).2.events =
      countEv isMutexUnlock w.events + 1 := by
  obtain ⟨s, p⟩ := cb
  have hp' : p = true := hcb
  subst hp'
  refine ⟨?_, ?_, ?_, ?_, ?_, ?_, ?_, ?_, ?_, ?_⟩ <;>
    simp [session, lent_stdout, lent_file, LentFile.capture_string,
      LentFile.capture, mkPipe, LentFile.capture_into, LentFile.flush,
      cFflush, LentFile.swap_fd, swap_fd_c, runCallback,
      hm, hp, hh, hf, hs, isFlushOkEv, isSwapAttempt, isFunlock,
      isMutexUnlock, fdClosed_closeFd_mono, fdClosed_closeFd_self]

/-- Witness for claim C1 amended: the amended theorem at the idle world and a
concrete panicking callback. -/
theorem panic_releases_lock_but_skips_restore_witness :
    (session wIdle ⟨"x".toList, true⟩).1 = SessionResult.panicked ∧
    (session wIdle ⟨"x".toList, true⟩).2.fileTarget = wIdle.nextFd + 1 ∧
    fdClosed (session wIdle ⟨"x".toList, true⟩).2 wIdle.fileTarget = true ∧
    (session wIdle ⟨"x".toList, true⟩).2.fileLocked = false ∧
    (session wIdle ⟨"x".toList, true⟩).2.mutexHeld = false ∧
    (session wIdle ⟨"x".toList, true⟩).2.poisoned = true ∧
    countEv isFlushOkEv (session wIdle ⟨"x".toList, true⟩).2.events =
      countEv isFlushOkEv wIdle.events + 1 ∧
    countEv isSwapAttempt (session wIdle ⟨"x".toList, true⟩).2.events =
      countEv isSwapAttempt wIdle.events + 1 ∧
    countEv isFunlock (session wIdle ⟨"x".toList, true⟩).2.events =
      countEv isFunlock wIdle.events + 1 ∧
    countEv isMutexUnlock (session wIdle ⟨"x".toList, true⟩).2.events =
      countEv isMutexUnlock wIdle.events + 1 := by
  have h :=
    panic_releases_lock_but_skips_restore wIdle ⟨"x".toList, true⟩
      rfl rfl rfl rfl rfl rfl
  exact h

/-- Counterexample to claim C2: the claim says a failure of the descriptor-exchange
primitive at the swap-in is surfaced by `capture_into` as an I/O error.
In fact, with the primitive failing at step 2 (one `eSwapErr` in the
trace), `capture_into` still returns `Ok(())`: `LentFile::swap_fd` never
checks the primitive's return value. -/
theorem swap_failure_not_surfaced :
    (LentFile.capture_into { w0 with swapFailures := [some 9] } 11
        ⟨"m".toList, false⟩).1 = CapResult.ok ∧
    countEv isSwapErrEv
      (LentFile.capture_into { w0 with swapFailures := [some 9] } 11
          ⟨"m".toList, false⟩).2.events = 1 := by
  exact ⟨rfl, rfl⟩

/-- Claim C2 amended: `capture_into` never surfaces a failure of the
descriptor-exchange primitive: `LentFile::swap_fd` discards the C
primitive's error return (wrapping it unchecked in an `OwnedFd`), so
whenever both flushes succeed and the callback returns normally,
`capture_into` returns `Ok(())` no matter how the exchange primitive
behaved at step 2 or step 5; only flush failures are surfaced as I/O
errors. -/
theorem capture_into_ok_despite_swap_failure
    (w : World) (fdArg : Int) (cb : Callback)
    (hf : w.flushFailures = []) (hcb : cb.panics = false) :
    (LentFile.capture_into w fdArg cb).1 = CapResult.ok := by
  obtain ⟨s, p⟩ := cb
  have hp' : p = false := hcb
  subst hp'
  rcases hsw : w.swapFailures with _ | ⟨_ | e, rest⟩ <;>
    simp [LentFile.capture_into, LentFile.flush, cFflush, hf,
      LentFile.swap_fd, swap_fd_c, hsw, runCallback]

/-- Witness for claim C2 amended: the amended theorem at a world whose exchange
primitive fails at both step 2 and step 5. -/
theorem capture_into_ok_despite_swap_failure_witness :
    (LentFile.capture_into { w0 with swapFailures := [some 9, some 13] } 11
        ⟨"m".toList, false⟩).1 = CapResult.ok := by
  exact capture_into_ok_despite_swap_failure
    { w0 with swapFailures := [some 9, some 13] } 11 ⟨"m".toList, false⟩ rfl rfl

/-- Claim C3: a flush failure inside `capture_into` surfaces that I/O error with
no further descriptor swap.  World `w₁` fails the step-1 (pre-swap) flush:
the error is returned, the stream's descriptor and buffer are unchanged,
and no exchange was attempted.  World `w₂` fails the step-4
(post-callback) flush: the error is returned, the stream's descriptor is
still the new target `fdArg`, and only the one swap-in was ever attempted
(no swap-back). -/
theorem flush_failure_aborts_without_further_swaps
    (w₁ w₂ : World) (fdArg : Int) (cb : Callback) (e₁ e₂ : Nat)
    (r₁ r₂ : List (Option Nat))
    (h1 : w₁.flushFailures = some e₁ :: r₁)
    (h2 : w₂.flushFailures = none :: some e₂ :: r₂)
    (h2s : w₂.swapFailures = [])
    (hcb : cb.panics = false) :
    ((LentFile.capture_into w₁ fdArg cb).1 = CapResult.ioErr e₁ ∧
      (LentFile.capture_into w₁ fdArg cb).2.fileTarget = w₁.fileTarget ∧
      (LentFile.capture_into w₁ fdArg cb).2.fileBuf = w₁.fileBuf ∧
      countEv isSwapAttempt (LentFile.capture_into w₁ fdArg cb).2.events =
        countEv isSwapAttempt w₁.events) ∧
    ((LentFile.capture_into w₂ fdArg cb).1 = CapResult.ioErr e₂ ∧
      (LentFile.capture_into w₂ fdArg cb).2.fileTarget = fdArg ∧
      countEv isSwapAttempt (LentFile.capture_into w₂ fdArg cb).2.events =
        countEv isSwapAttempt w₂.events + 1) := by
  obtain ⟨s, p⟩ := cb
  have hp' : p = false := hcb
  subst hp'
  constructor
  · refine ⟨?_, ?_, ?_, ?_⟩ <;>
      simp [LentFile.capture_into, LentFile.flush, cFflush, h1,
        isSwapAttempt, isFlushOkEv]
  · refine ⟨?_, ?_, ?_⟩ <;>
      simp [LentFile.capture_into, LentFile.flush, cFflush, h2,
        LentFile.swap_fd, swap_fd_c, h2s, runCallback, isSwapAttempt]

/-- Witness for claim C3: the theorem at two concrete worlds, one failing the
pre-swap flush with errno 7, one failing the post-callback flush with
errno 5. -/
theorem flush_failure_aborts_without_further_swaps_witness :
    ((LentFile.capture_into { w0 with flushFailures := [some 7] } 11
          ⟨"m".toList, false⟩).1 = CapResult.ioErr 7 ∧
      (LentFile.capture_into { w0 with flushFailures := [some 7] } 11
          ⟨"m".toList, false⟩).2.fileTarget =
        ({ w0 with flushFailures := [some 7] } : World).fileTarget ∧
      (LentFile.capture_into { w0 with flushFailures := [some 7] } 11
          ⟨"m".toList, false⟩).2.fileBuf =
        ({ w0 with flushFailures := [some 7] } : World).fileBuf ∧
      countEv isSwapAttempt
          (LentFile.capture_into { w0 with flushFailures := [some 7] } 11
              ⟨"m".toList, false⟩).2.events =
        countEv isSwapAttempt ({ w0 with flushFailures := [some 7] } : World).events) ∧
    ((LentFile.capture_into { w0 with flushFailures := [none, some 5] } 11
          ⟨"m".toList, false⟩).1 = CapResult.ioErr 5 ∧
      (LentFile.capture_into { w0 with flushFailures := [none, some 5] } 11
          ⟨"m".toList, false⟩).2.fileTarget = 11 ∧
      countEv isSwapAttempt
          (LentFile.capture_into { w0 with flushFailures := [none, some 5] } 11
              ⟨"m".toList, false⟩).2.events =
        countEv isSwapAttempt
            ({ w0 with flushFailures := [none, some 5] } : World).events + 1) := by
  exact flush_failure_aborts_without_further_swaps
    { w0 with flushFailures := [some 7] }
    { w0 with flushFailures := [none, some 5] }
    11 ⟨"m".toList, false⟩ 7 5 [] [] rfl rfl rfl rfl

/-- Claim C4: on the success path `capture_into` performs exactly, in order:
flush to the current target, exchange the descriptor for the supplied
target, invoke the callback, flush again (reaching the new target),
exchange the descriptor back (the received-back descriptor — the capture
target — is then dropped, i.e. closed), and return `Ok(())` with the
stream's descriptor equal to its pre-capture target. -/
theorem capture_into_success_trace
    (w : World) (fdArg : Int) (cb : Callback)
    (r r' : List (Option Nat))
    (hf : w.flushFailures = none :: none :: r)
    (hs : w.swapFailures = none :: none :: r')
    (hcb : cb.panics = false) :
    (LentFile.capture_into w fdArg cb).1 = CapResult.ok ∧
    (LentFile.capture_into w fdArg cb).2.fileTarget = w.fileTarget ∧
    (LentFile.capture_into w fdArg cb).2.events =
      w.events ++
        [Event.eFlushOk, Event.eSwapOk fdArg w.fileTarget, Event.eCallback,
          Event.eFlushOk, Event.eSwapOk w.fileTarget fdArg,
          Event.eCloseFd fdArg] := by
  obtain ⟨s, p⟩ := cb
  have hp' : p = false := hcb
  subst hp'
  refine ⟨?_, ?_, ?_⟩ <;>
    simp [LentFile.capture_into, LentFile.flush, cFflush, hf,
      LentFile.swap_fd, swap_fd_c, hs, runCallback]

/-- Witness for claim C4: the theorem at the canonical world with explicit
success-oracle entries. -/
theorem capture_into_success_trace_witness :
    (LentFile.capture_into
        wSucc
        11 ⟨"m".toList, false⟩).1 = CapResult.ok ∧
    (LentFile.capture_into
        wSucc
        11 ⟨"m".toList, false⟩).2.fileTarget =
      wSucc.fileTarget ∧
    (LentFile.capture_into
        wSucc
        11 ⟨"m".toList, false⟩).2.events =
      wSucc.events ++
        [Event.eFlushOk,
          Event.eSwapOk 11
            wSucc.fileTarget,
          Event.eCallback, Event.eFlushOk,
          Event.eSwapOk
            wSucc.fileTarget 11,
          Event.eCloseFd 11] := by
  exact capture_into_success_trace wSucc 11 ⟨"m".toList, false⟩ [] [] rfl rfl rfl

/-- Claim C10: if the post-callback flush fails, the owned descriptor holding
the stream's original target (obtained from the first swap) is dropped —
and therefore closed — inside `capture_into` before the error is
returned: afterwards the original target's descriptor is closed, so the
caller cannot restore or inspect it. -/
theorem post_flush_failure_closes_original_fd
    (w : World) (fdArg : Int) (cb : Callback) (e : Nat)
    (r : List (Option Nat))
    (hf : w.flushFailures = none :: some e :: r)
    (hs : w.swapFailures = [])
    (hcb : cb.panics = false) :
    (LentFile.capture_into w fdArg cb).1 = CapResult.ioErr e ∧
    fdClosed (LentFile.capture_into w fdArg cb).2 w.fileTarget = true := by
  obtain ⟨s, p⟩ := cb
  have hp' : p = false := hcb
  subst hp'
  refine ⟨?_, ?_⟩ <;>
    simp [LentFile.capture_into, LentFile.flush, cFflush, hf,
      LentFile.swap_fd, swap_fd_c, hs, runCallback, fdClosed_closeFd_self]

/-- Witness for claim C10: the theorem at the canonical world whose second flush
fails with errno 5. -/
theorem post_flush_failure_closes_original_fd_witness :
    (LentFile.capture_into { w0 with flushFailures := [none, some 5] } 11
        ⟨"m".toList, false⟩).1 = CapResult.ioErr 5 ∧
    fdClosed
        (LentFile.capture_into { w0 with flushFailures := [none, some 5] } 11
            ⟨"m".toList, false⟩).2
        ({ w0 with flushFailures := [none, some 5] } : World).fileTarget = true := by
  exact post_flush_failure_closes_original_fd
    { w0 with flushFailures := [none, some 5] } 11 ⟨"m".toList, false⟩ 5 []
    rfl rfl rfl

/-- Claim C6: the acquire operations return a lock-poisoned failure if and only
if a prior holder panicked while holding that identity's process-wide
mutex.  For any world whose mutex is free: `lent_stdout`/`lent_stderr`
fail with the poison error exactly when the poison flag is set; the flag
is propagated, not cleared, by a failing acquire; and the flag's
provenance is a panic while holding — a full session sets it exactly when
its callback panicked (the guard's drop during unwinding poisons the
mutex). -/
theorem poison_iff_prior_panic
    (w : World) (cb : Callback) (hm : w.mutexHeld = false) :
    ((lent_stdout w).1 = LockResult.poisonErr ↔ w.poisoned = true) ∧
    ((lent_stderr w).1 = LockResult.poisonErr ↔ w.poisoned = true) ∧
    (w.poisoned = true → (lent_stdout w).2.poisoned = true) ∧
    ((session wIdle cb).2.poisoned = cb.panics) := by
  obtain ⟨s, p⟩ := cb
  refine ⟨?_, ?_, ?_, ?_⟩
  · cases h : w.poisoned <;> simp [lent_stdout, lent_file, hm, h]
  · cases h : w.poisoned <;> simp [lent_stderr, lent_file, hm, h]
  · intro h; simp [lent_stdout, lent_file, hm, h]
  · cases p <;> rfl

/-- Witness for claim C6: the theorem at a poisoned idle world with a panicking
callback. -/
theorem poison_iff_prior_panic_witness :
    ((lent_stdout { wIdle with poisoned := true }).1 = LockResult.poisonErr ↔
        ({ wIdle with poisoned := true } : World).poisoned = true) ∧
    ((lent_stderr { wIdle with poisoned := true }).1 = LockResult.poisonErr ↔
        ({ wIdle with poisoned := true } : World).poisoned = true) ∧
    (({ wIdle with poisoned := true } : World).poisoned = true →
        (lent_stdout { wIdle with poisoned := true }).2.poisoned = true) ∧
    ((session wIdle ⟨"x".toList, true⟩).2.poisoned =
      (⟨"x".toList, true⟩ : Callback).panics) := by
  exact poison_iff_prior_panic { wIdle with poisoned := true }
    ⟨"x".toList, true⟩ rfl

/-- Claim C7: lock acquisition takes the process-wide mutex first and only then
the stream's internal writer lock (`flockfile`); on handle destruction the
writer lock is released first (`funlockfile`), then the mutex, for any
exit mode (`b` is whether the thread is panicking), and exactly once per
session on every exit path — a whole session emits exactly one
`funlockfile` and one mutex release, ending with both locks free, whether
or not the callback panicked. -/
theorem lock_order_and_exactly_once_release
    (w₁ w₂ : World) (b : Bool) (cb : Callback)
    (h1 : w₁.mutexHeld = false) (h2 : w₁.poisoned = false)
    (h3 : w₂.handleCount ≠ 0) :
    (lent_stdout w₁).2.events =
      w₁.events ++ [Event.eMutexLock, Event.eFlockfile] ∧
    (LentFile.dropHandle w₂ b).events =
      w₂.events ++ [Event.eFunlockfile, Event.eMutexUnlock] ∧
    countEv isFunlock (session wIdle cb).2.events = 1 ∧
    countEv isMutexUnlock (session wIdle cb).2.events = 1 ∧
    (session wIdle cb).2.fileLocked = false ∧
    (session wIdle cb).2.mutexHeld = false := by
  obtain ⟨s, p⟩ := cb
  refine ⟨?_, ?_, ?_, ?_, ?_, ?_⟩
  · simp [lent_stdout, lent_file, h1, h2]
  · simp [h3]
  · cases p <;> rfl
  · cases p <;> rfl
  · cases p <;> rfl
  · cases p <;> rfl

/-- Witness for claim C7: the theorem at concrete worlds — an idle unpoisoned world
for acquisition, a held world for release, and a non-panicking callback
for the whole-session counts. -/
theorem lock_order_and_exactly_once_release_witness :
    (lent_stdout wIdle).2.events =
      wIdle.events ++ [Event.eMutexLock, Event.eFlockfile] ∧
    (LentFile.dropHandle w0 true).events =
      w0.events ++ [Event.eFunlockfile, Event.eMutexUnlock] ∧
    countEv isFunlock (session wIdle ⟨"x".toList, false⟩).2.events = 1 ∧
    countEv isMutexUnlock (session wIdle ⟨"x".toList, false⟩).2.events = 1 ∧
    (session wIdle ⟨"x".toList, false⟩).2.fileLocked = false ∧
    (session wIdle ⟨"x".toList, false⟩).2.mutexHeld = false := by
  exact lock_order_and_exactly_once_release wIdle w0 true
    ⟨"x".toList, false⟩ rfl rfl (by decide)

theorem capture_into_locks_frame (w : World) (fdArg : Int) (cb : Callback) :
    (LentFile.capture_into w fdArg cb).2.handleCount = w.handleCount ∧
    (LentFile.capture_into w fdArg cb).2.mutexHeld = w.mutexHeld ∧
    (LentFile.capture_into w fdArg cb).2.fileLocked = w.fileLocked := by
  obtain ⟨s, p⟩ := cb
  rcases hf : w.flushFailures with _ | ⟨_ | e1, r1⟩
  · rcases hs : w.swapFailures with _ | ⟨_ | e2, _ | ⟨_ | e3, r3⟩⟩ <;>
      cases p <;>
        simp [LentFile.capture_into, LentFile.flush, cFflush,
          LentFile.swap_fd, swap_fd_c, runCallback, hf, hs]
  · rcases r1 with _ | ⟨_ | e1b, r1b⟩ <;>
      rcases hs : w.swapFailures with _ | ⟨_ | e2, _ | ⟨_ | e3, r3⟩⟩ <;>
        cases p <;>
          simp [LentFile.capture_into, LentFile.flush, cFflush,
            LentFile.swap_fd, swap_fd_c, runCallback, hf, hs]
  · simp [LentFile.capture_into, LentFile.flush, cFflush, hf]

theorem inv_step (w : World) (op : Op) (h : Inv w) : Inv (stepOp w op) := by
  obtain ⟨h1, h2⟩ := h
  cases op with
  | opLent =>
    simp only [stepOp, lent_stdout, lent_file]
    by_cases hm : w.mutexHeld = true
    · rw [if_pos hm]
      exact ⟨h1, h2⟩
    · by_cases hp : w.poisoned = true
      · rw [if_neg hm, if_pos hp]
        unfold Inv
        simp only [pushEvent_handleCount, pushEvent_mutexHeld,
          pushEvent_fileLocked]
        exact ⟨h1, h2⟩
      · have hm' : w.mutexHeld = false := by
          cases hmv : w.mutexHeld
          · rfl
          · exact absurd hmv hm
        have hzero : w.handleCount = 0 := by
          rcases h2 with h0 | ⟨hmh, _⟩
          · exact h0
          · rw [hmh] at hm'; cases hm'
        rw [if_neg hm, if_neg hp]
        unfold Inv
        simp [hzero]
  | opCapture fdArg cb =>
    simp only [stepOp]
    by_cases hc : w.handleCount = 0
    · simpa [hc, Inv] using ⟨h1, h2⟩
    · obtain ⟨f1, f2, f3⟩ := capture_into_locks_frame w fdArg cb
      unfold Inv
      rw [if_neg hc, f1, f2, f3]
      exact ⟨h1, h2⟩
  | opDrop b =>
    simp only [stepOp]
    unfold LentFile.dropHandle
    by_cases hc : w.handleCount = 0
    · simpa [hc, Inv] using ⟨h1, h2⟩
    · unfold Inv
      rw [if_neg hc]
      refine ⟨?_, Or.inl ?_⟩ <;> simp <;> omega

/-- Claim C8: the handle invariant holds inductively — from any state
satisfying it, any sequence of acquire / capture / drop operations
preserves that at most one lent handle exists for the stream identity,
and that while one exists both the process-wide mutex and the stream's
internal writer lock are held (the model is the per-thread interleaving
of those operations on one identity's state; handle ownership by a single
thread is what the mutex enforces and is not separately represented). -/
theorem at_most_one_handle_invariant (w : World) (ops : List Op)
    (h : Inv w) : Inv (runOps w ops) := by
  induction ops generalizing w with
  | nil => exact h
  | cons op rest ih => exact ih (stepOp w op) (inv_step w op h)

/-- Witness for claim C8: the invariant at the idle world, transported across a
concrete acquire / capture / drop / re-acquire sequence. -/
theorem at_most_one_handle_invariant_witness :
    Inv wIdle ∧
      Inv (runOps wIdle
        [Op.opLent, Op.opCapture 11 ⟨"x".toList, false⟩, Op.opDrop false,
          Op.opLent]) := by
  have h : Inv wIdle := ⟨by decide, Or.inl (by decide)⟩
  exact ⟨h, at_most_one_handle_invariant wIdle _ h⟩

end Wrcap
